import Mathlib

/-!
# Verification of the botbid AI-agent marketplace against its specification

This file gives a shallow embedding, in Lean 4, of the parts of the botbid
marketplace service (a Python/FastAPI code base) that the specification's
testable claims are about, together with theorems settling each claim.

Modelling conventions:
* Python `float` money/score values are modelled as exact rationals (`ℚ`);
  Python's `round(x, 2)` (round-half-to-even at two decimals, per the Python
  documentation) is modelled by `pyRound2` on `ℚ`.
* `datetime` instants are modelled as rational "seconds" on a global clock;
  durations in milliseconds are rationals.
* Database rows are Lean structures; a table is a `List` of rows; the
  SQLAlchemy `scalar_one_or_none` lookup is `List.find?`.
* `raise HTTPException(...)` is modelled by `Except`-style error results;
  each distinct `detail` site gets its own error constructor.
* Strings are processed as `List Char`.  Python's `str.lower`, `str.strip`
  and the regex classes `\w`/`\s` are modelled on the ASCII range (the only
  range the relevant code paths can see, as noted at each definition).
-/

/-! ## Small string helpers (Python `in`, `startswith`, `strip`) -/

/-- The `startsWithL hay needle`: `hay` begins with `needle` (Python `startswith`
on the character list level). -/
def startsWithL : List Char → List Char → Bool
  | _, [] => true
  | [], _ :: _ => false
  | c :: cs, d :: ds => c == d && startsWithL cs ds

/-- The `containsSub hay needle`: Python's substring test `needle in hay`. -/
def containsSub : List Char → List Char → Bool
  | [], needle => needle.isEmpty
  | c :: rest, needle => startsWithL (c :: rest) needle || containsSub rest needle

/-- ASCII whitespace, the characters Python's `\s` regex class and
`str.strip()` recognise in the ASCII range: space, tab, newline, carriage
return, vertical tab, form feed. -/
def pyIsSpace (c : Char) : Bool :=
  c == ' ' || c == '\t' || c == '\n' || c == '\r' || c == '\x0B' || c == '\x0C'

/-- Python `str.strip()` restricted to ASCII whitespace. -/
def pyStrip (l : List Char) : List Char :=
  ((l.dropWhile pyIsSpace).reverse.dropWhile pyIsSpace).reverse

/-! ## Python `round(x, 2)` on exact rationals -/

/-- Python's `round(x, 2)`: round to the nearest multiple of 1/100 with ties
going to the even multiple (round-half-to-even), modelled exactly on `ℚ`. -/
def pyRound2 (x : ℚ) : ℚ :=
  let y := x * 100
  let fl : ℤ := ⌊y⌋
  let frac : ℚ := y - (fl : ℚ)
  let n : ℤ :=
    if 1/2 < frac then fl + 1
    else if frac < 1/2 then fl
    else if fl % 2 = 0 then fl else fl + 1
  (n : ℚ) / 100

/-! ## `utils/helpers.py` -/

/-- The `calculate_transaction_fee(amount, fee_percent)` from `utils/helpers.py`:
`fee = round(amount * (fee_percent / 100), 2)`; `net = round(amount - fee, 2)`;
returns `(fee, net)`. -/
def calculate_transaction_fee (amount fee_percent : ℚ) : ℚ × ℚ :=
  let fee := pyRound2 (amount * (fee_percent / 100))
  let net := pyRound2 (amount - fee)
  (fee, net)

/-- Result shape of `paginate` from `utils/helpers.py`. -/
structure Paginated (α : Type) where
  items : List α
  total : ℕ
  page : ℕ
  page_size : ℕ
  total_pages : ℕ
  deriving Repr, DecidableEq

/-- The `paginate(items, page, page_size)` from `utils/helpers.py`:
`total_pages = (total + page_size - 1) // page_size`,
`items[start:end]` with `start = (page - 1) * page_size`,
`end = start + page_size` (Python slice = drop then take for the
non-negative indices that `page ≥ 1` guarantees). -/
def paginate {α : Type} (items : List α) (page page_size : ℕ) : Paginated α :=
  let total := items.length
  let total_pages := (total + page_size - 1) / page_size
  let start := (page - 1) * page_size
  { items := (items.drop start).take page_size
    total := total
    page := page
    page_size := page_size
    total_pages := total_pages }

/-! ## `slugify` from `utils/helpers.py`

The Python code normalizes with NFKD, encodes to ASCII dropping
non-representable characters, lowercases, deletes characters outside
`[\w\s-]`, collapses runs of `[-\s]+` to a single hyphen, and strips
leading/trailing hyphens.

Modelling note: the table-driven NFKD decomposition is modelled as the
identity, and the subsequent `encode("ascii", "ignore")` as dropping every
non-ASCII code point.  On ASCII inputs this agrees exactly with the source,
and every `slugify` output is ASCII, so the idempotence claim is
insensitive to this modelling choice. -/

/-- The upper-to-lower mapping of the 26 basic latin letters. -/
def lowerPairs : List (Char × Char) :=
  [ ('A', 'a'), ('B', 'b'), ('C', 'c'), ('D', 'd'), ('E', 'e'), ('F', 'f'),
    ('G', 'g'), ('H', 'h'), ('I', 'i'), ('J', 'j'), ('K', 'k'), ('L', 'l'),
    ('M', 'm'), ('N', 'n'), ('O', 'o'), ('P', 'p'), ('Q', 'q'), ('R', 'r'),
    ('S', 's'), ('T', 't'), ('U', 'u'), ('V', 'v'), ('W', 'w'), ('X', 'x'),
    ('Y', 'y'), ('Z', 'z') ]

/-- Python `str.lower()` on the ASCII range (the only range `slugify`
applies it to, since it runs after the ASCII encode step): map `A`–`Z` to
`a`–`z`, fix everything else. -/
def lowerA (c : Char) : Char :=
  match lowerPairs.find? (fun p => p.1 == c) with
  | some p => p.2
  | none => c

/-- The `lowerL`: Python `str.lower()` over a character list (ASCII range). -/
def lowerL (l : List Char) : List Char :=
  l.map lowerA

/-- Python's regex class `\w` on ASCII text: letters, digits, underscore. -/
def isWordAscii (c : Char) : Bool :=
  c.isAlphanum || c == '_'

/-- A character the regex `[-\s]+` matches: hyphen or whitespace. -/
def isSepC (c : Char) : Bool :=
  c == '-' || pyIsSpace c

/-- A character `re.sub(r"[^\w\s-]", "", ·)` keeps. -/
def isKeepC (c : Char) : Bool :=
  isWordAscii c || pyIsSpace c || c == '-'

/-- The `re.sub(r"[-\s]+", "-", ·)`: replace every maximal run of hyphens and
whitespace by a single hyphen. -/
def collapseSep : List Char → List Char
  | [] => []
  | [c] => if isSepC c then ['-'] else [c]
  | c :: d :: rest =>
    if isSepC c && isSepC d then collapseSep (d :: rest)
    else (if isSepC c then '-' else c) :: collapseSep (d :: rest)

/-- Python `str.strip("-")`: drop leading and trailing hyphens. -/
def stripDash (l : List Char) : List Char :=
  ((l.dropWhile (· == '-')).reverse.dropWhile (· == '-')).reverse

/-- The `slugify` on the character-list level: ASCII-restrict (modelling
NFKD + `encode("ascii", "ignore")`), lowercase, delete `[^\w\s-]`,
collapse `[-\s]+` to `-`, strip `-`. -/
def slugifyL (s : List Char) : List Char :=
  stripDash (collapseSep ((lowerL (s.filter (fun c => c.toNat < 128))).filter isKeepC))

/-- The `slugify(text)` from `utils/helpers.py`. -/
def slugify (s : String) : String :=
  ⟨slugifyL s.data⟩

/-! ## `utils/content_moderation.py` -/

/-- The `PROHIBITED_KEYWORDS` from `utils/content_moderation.py`, in source
order. -/
def PROHIBITED_KEYWORDS : List String :=
  [ "weapon", "weapons", "explosive", "bomb", "poison", "toxic",
    "malware", "virus", "ransomware", "spyware", "keylogger",
    "hack", "hacking", "exploit", "zero-day", "0day",
    "ddos", "dos attack", "botnet",
    "phishing", "scam", "fraud",
    "stolen", "leaked", "breach", "dump",
    "illegal", "illicit",
    "drug", "drugs", "narcotic",
    "counterfeit", "fake id", "forged",
    "jailbreak", "jailbreaking",
    "prompt injection", "prompt attack",
    "model extraction", "model stealing",
    "training data poison", "data poisoning",
    "adversarial attack", "adversarial example",
    "backdoor attack", "trojan model",
    "deepfake", "fake news generator",
    "misinformation", "disinformation",
    "impersonation tool",
    "doxxing", "dox",
    "stalking", "stalkerware",
    "spy on", "surveillance",
    "personal data", "pii dump" ]

/-- One prohibited regex of the shape `(a1|…)\s+(b1|…)`: every pattern in
`PROHIBITED_PATTERNS` has this form (the optional suffix group of
`crack(ed|ing)?` is expanded into the three alternatives it denotes). -/
structure SeqPat where
  alts1 : List String
  alts2 : List String

/-- The `PROHIBITED_PATTERNS` from `utils/content_moderation.py`. -/
def PROHIBITED_PATTERNS : List SeqPat :=
  [ ⟨["bypass"], ["security", "safety", "filter", "guardrail"]⟩,
    ⟨["disable"], ["safety", "security", "protection"]⟩,
    ⟨["remove"], ["watermark", "copyright"]⟩,
    ⟨["crack", "cracked", "cracking"], ["software", "license", "key"]⟩,
    ⟨["stolen"], ["credential", "password", "data", "account"]⟩,
    ⟨["buy", "sell"], ["account", "credential", "password"]⟩ ]

/-- After at least one whitespace character has been consumed: skip further
whitespace and try to match one of the second-group alternatives (the
backtracking search a regex engine performs for `\s+(b1|…)`). -/
def altAfterSpaces (alts2 : List String) : List Char → Bool
  | [] => alts2.any (fun b => b.isEmpty)
  | c :: rest =>
    (alts2.any fun b => startsWithL (c :: rest) b.data) ||
      (pyIsSpace c && altAfterSpaces alts2 rest)

/-- Match `\s+(b1|…)` at the head of the text. -/
def spacesThenAlt (alts2 : List String) : List Char → Bool
  | [] => false
  | c :: rest => pyIsSpace c && altAfterSpaces alts2 rest

/-- Match `(a1|…)\s+(b1|…)` anchored at the head of the text. -/
def matchSeqAt (p : SeqPat) (cs : List Char) : Bool :=
  p.alts1.any fun a => startsWithL cs a.data && spacesThenAlt p.alts2 (cs.drop a.length)

/-- Python `re.search`: try the pattern at every position. -/
def searchSeqPat (p : SeqPat) : List Char → Bool
  | [] => matchSeqAt p []
  | c :: rest => matchSeqAt p (c :: rest) || searchSeqPat p rest

/-- The lowercased combined text `f"{title} {description} {' '.join(tags)}"`
used by both the safety check and the severity score. -/
def combinedText (title description : String) (tags : List String) : List Char :=
  lowerL (title.data ++ ' ' :: description.data ++ ' ' :: (String.intercalate " " tags).data)

/-- The `check_content_safety(title, description, tags)` from
`utils/content_moderation.py`.  Returns `(is_safe, reason)`; the long
explanatory reason strings are condensed to the matched keyword /
`"pattern"` / `"Content approved"` (no claim inspects the prose). -/
def check_content_safety (title description : String) (tags : List String) : Bool × String :=
  let all_text := combinedText title description tags
  match PROHIBITED_KEYWORDS.find? (fun kw => containsSub all_text (lowerL kw.data)) with
  | some kw => (false, kw)
  | none =>
    if PROHIBITED_PATTERNS.any (fun p => searchSeqPat p all_text) then (false, "pattern")
    else (true, "Content approved")

/-! ## `services/guardian_moderator.py` -/

/-- The `ModerationAction` from `services/guardian_moderator.py`. -/
inductive ModerationAction where
  | approved
  | warning
  | flagged
  | removed
  | agent_warned
  | agent_suspended
  deriving DecidableEq, Repr

/-- The `AgentTrustScore` from `services/guardian_moderator.py`. -/
structure AgentTrustScore where
  agent_id : String
  score : ℚ
  warnings : ℕ
  violations : ℕ
  last_violation : Option ℚ
  is_trusted : Bool
  deriving Repr

/-- One `ModerationLog` entry (the generated `MOD-…` id string and the
timestamp are represented by the state's log counter / the `now` argument;
the free-form details blob is condensed to the severity). -/
structure ModerationLog where
  action : ModerationAction
  target_type : String
  target_id : String
  agent_id : Option String
  reason : String
  severity : Option ℕ
  deriving Repr

/-- A `flagged_content` map entry from `_flag_content`. -/
structure FlaggedContent where
  content_type : String
  content_id : String
  reason : String
  agent_id : String
  deriving Repr

/-- The mutable in-memory state of the `GuardianModerator` singleton. -/
structure GuardianState where
  moderation_logs : List ModerationLog
  agent_trust_scores : List (String × AgentTrustScore)
  flagged_content : List (String × FlaggedContent)
  log_counter : ℕ

/-- The freshly constructed Guardian singleton. -/
def freshGuardian : GuardianState :=
  ⟨[], [], [], 0⟩

/-- Append a moderation log entry, consuming one generated log id. -/
def appendLog (st : GuardianState) (log : ModerationLog) : GuardianState :=
  { st with moderation_logs := st.moderation_logs ++ [log],
            log_counter := st.log_counter + 1 }

/-- The `_get_agent_trust`: fetch an agent's trust record, lazily creating it
with score 0.8, no warnings/violations, trusted. -/
def _get_agent_trust (st : GuardianState) (aid : String) : AgentTrustScore × GuardianState :=
  match st.agent_trust_scores.find? (fun p => p.1 == aid) with
  | some p => (p.2, st)
  | none =>
    let t : AgentTrustScore :=
      { agent_id := aid, score := 4/5, warnings := 0, violations := 0,
        last_violation := none, is_trusted := true }
    (t, { st with agent_trust_scores := st.agent_trust_scores ++ [(aid, t)] })

/-- Replace an agent's trust record in the store. -/
def _set_trust (st : GuardianState) (aid : String) (t : AgentTrustScore) : GuardianState :=
  { st with agent_trust_scores :=
      st.agent_trust_scores.map fun p => if p.1 == aid then (aid, t) else p }

/-- The `_record_warning`: `warnings += 1`, `score = max(0, score - 0.05)`,
untrusted once `warnings >= 3`. -/
def _record_warning (st : GuardianState) (aid : String) : GuardianState :=
  let (t, st) := _get_agent_trust st aid
  let t := { t with warnings := t.warnings + 1, score := max 0 (t.score - 5/100) }
  let t := if 3 ≤ t.warnings then { t with is_trusted := false } else t
  _set_trust st aid t

/-- The `_suspend_agent`: append an `agent_suspended` log entry. -/
def _suspend_agent (st : GuardianState) (aid reason : String) : GuardianState :=
  appendLog st
    { action := .agent_suspended, target_type := "agent", target_id := aid,
      agent_id := some aid, reason := reason, severity := none }

/-- The `_record_violation`: `violations += 1`, stamp `last_violation`,
`score = max(0, score - 0.2)`, immediately untrusted; at 3 violations the
agent is suspended (log entry only). -/
def _record_violation (st : GuardianState) (aid : String) (now : ℚ) : GuardianState :=
  let (t, st) := _get_agent_trust st aid
  let t := { t with violations := t.violations + 1, last_violation := some now,
                    score := max 0 (t.score - 1/5), is_trusted := false }
  let st := _set_trust st aid t
  if 3 ≤ t.violations then
    _suspend_agent st aid "Repeated violations of marketplace rules"
  else st

/-- The `_flag_content`: upsert into the flagged-content map under the key
`f"{content_type}:{content_id}"`. -/
def _flag_content (st : GuardianState) (content_type content_id reason aid : String) :
    GuardianState :=
  let key := content_type ++ ":" ++ content_id
  let entry : FlaggedContent :=
    { content_type := content_type, content_id := content_id,
      reason := reason, agent_id := aid }
  { st with flagged_content :=
      (st.flagged_content.filter fun p => p.1 != key) ++ [(key, entry)] }

/-- The `_calculate_severity`: 0–10 saturating severity score, +4 per
high-severity word, +2 per medium, +1 per low. -/
def _calculate_severity (title description : String) (tags : List String) : ℕ :=
  let text := combinedText title description tags
  let high := ["malware", "weapon", "exploit", "ransomware", "ddos", "botnet"]
  let medium := ["hack", "crack", "stolen", "leaked", "jailbreak"]
  let low := ["bypass", "unlock", "free"]
  let severity :=
    (high.filter fun w => containsSub text w.data).length * 4 +
    (medium.filter fun w => containsSub text w.data).length * 2 +
    (low.filter fun w => containsSub text w.data).length * 1
  min 10 severity

/-- The decision `review_listing` returns (the randomly chosen flavor
strings `message` / `guardian_says` are elided; `approved` is computed from
the action exactly as in source: `action == ModerationAction.APPROVED`). -/
structure ReviewResult where
  approved : Bool
  action : ModerationAction
  deriving DecidableEq, Repr

/-- The `GuardianModerator.review_listing` from `services/guardian_moderator.py`. -/
def review_listing (st : GuardianState) (now : ℚ) (listing_id title description : String)
    (tags : List String) (agent_id : String) : ReviewResult × GuardianState :=
  let safety := check_content_safety title description tags
  let is_safe := safety.1
  let reason := safety.2
  let severity := _calculate_severity title description tags
  let tst := _get_agent_trust st agent_id
  let trust := tst.1
  let st := tst.2
  let ast :=
    if is_safe = true ∧ severity = 0 then (ModerationAction.approved, st)
    else if severity ≤ 2 ∧ trust.is_trusted = true then
      (ModerationAction.warning, _record_warning st agent_id)
    else if severity ≤ 4 then
      (ModerationAction.flagged, _flag_content st "listing" listing_id reason agent_id)
    else
      (ModerationAction.removed, _record_violation st agent_id now)
  let action := ast.1
  let st := appendLog ast.2
    { action := action, target_type := "listing", target_id := listing_id,
      agent_id := some agent_id, reason := reason, severity := some severity }
  ({ approved := action = ModerationAction.approved, action := action }, st)

/-! ## Data model (`models/database_models.py`), restricted to the fields
the claims touch -/

/-- The `AgentStatus`. -/
inductive AgentStatus where
  | active
  | suspended
  | banned
  | pending
  deriving DecidableEq, Repr

/-- The `ListingStatus`. -/
inductive ListingStatus where
  | draft
  | active
  | sold
  | expired
  | cancelled
  deriving DecidableEq, Repr

/-- The `TransactionStatus`. -/
inductive TransactionStatus where
  | pending
  | completed
  | failed
  | refunded
  | disputed
  deriving DecidableEq, Repr

/-- An `Agent` row (fields not read or written by the embedded operations
are omitted).  `last_active_at` is `none` until first touched. -/
structure Agent where
  id : String
  api_key_hash : String
  status : AgentStatus
  credits : ℚ
  rating_avg : ℚ
  rating_count : ℕ
  total_sales : ℕ
  total_purchases : ℕ
  last_active_at : Option ℚ
  deriving Repr

/-- A `Listing` row (fields the embedded operations use). -/
structure Listing where
  id : String
  seller_id : String
  title : String
  description : String
  price : ℚ
  quantity : ℕ
  status : ListingStatus
  deriving Repr

/-- A `Category` row (fields the embedded operations use). -/
structure Category where
  id : String
  is_active : Bool
  deriving Repr

/-- A `Transaction` row (fields the embedded operations use). -/
structure Transaction where
  id : String
  listing_id : String
  buyer_id : String
  seller_id : String
  quantity : ℕ
  unit_price : ℚ
  total_amount : ℚ
  fee_amount : ℚ
  net_amount : ℚ
  status : TransactionStatus
  deriving Repr

/-- A `Rating` row (fields the embedded operations use). -/
structure RatingRecord where
  id : String
  transaction_id : String
  rater_id : String
  ratee_id : String
  score : ℕ
  deriving Repr

/-! ## `utils/auth.py` -/

/-- The `hash_api_key`: SHA-256 hex digest of the key.  The digest function is
modelled as an injective tagging — the embedded code only ever compares
digests for equality, so any deterministic injective function is a faithful
model of the collision-free hash. -/
def hash_api_key (k : String) : String :=
  "sha256:" ++ k

/-- The error taxonomy of the two authentication dependencies (HTTP 401 for
the first three constructors, HTTP 403 for the last two). -/
inductive AuthErr where
  | missingKey
  | badKeyFormat
  | invalidKey
  | bannedAccount
  | suspendedAccount
  deriving DecidableEq, Repr

/-- The `get_current_agent` from `utils/auth.py` (the required-authentication
dependency).  `settings.API_KEY_PREFIX` is the literal `"aam_"`.  Returns
the authenticated agent together with the updated agents table
(`last_active_at` touched and committed). -/
def get_current_agent (api_key : Option String) (db : List Agent) (now : ℚ) :
    Except AuthErr (Agent × List Agent) :=
  match api_key with
  | none => .error .missingKey
  | some k =>
    if k = "" then .error .missingKey
    else if startsWithL k.data ("aam_").data = false then .error .badKeyFormat
    else
      let key_hash := hash_api_key k
      match db.find? (fun a => a.api_key_hash == key_hash) with
      | none => .error .invalidKey
      | some agent =>
        if agent.status = .banned then .error .bannedAccount
        else if agent.status = .suspended then .error .suspendedAccount
        else
          let agent := { agent with last_active_at := some now }
          .ok (agent, db.map fun a => if a.api_key_hash == key_hash then agent else a)

/-- The `get_optional_agent` from `utils/auth.py`: same lookup but returns
`none` instead of failing when the key is absent/malformed/unmatched, and
performs no status gate. -/
def get_optional_agent (api_key : Option String) (db : List Agent) (now : ℚ) :
    Option Agent × List Agent :=
  match api_key with
  | none => (none, db)
  | some k =>
    if k = "" ∨ startsWithL k.data ("aam_").data = false then (none, db)
    else
      let key_hash := hash_api_key k
      match db.find? (fun a => a.api_key_hash == key_hash) with
      | none => (none, db)
      | some agent =>
        let agent := { agent with last_active_at := some now }
        (some agent, db.map fun a => if a.api_key_hash == key_hash then agent else a)

/-! ## `utils/agent_verification.py` -/

/-- A stored challenge (`generate_verification_challenge`): the fields
`verify_challenge_response` reads.  Times are in seconds on the global
clock; `max_response_time_ms` is generated as 30000 and `expires_at` as
`created_at` + 300 seconds. -/
structure Challenge where
  expected_answer : String
  created_at : ℚ
  expires_at : ℚ
  max_response_time_ms : ℚ
  deriving Repr

/-- The `(is_valid, reason)` outcomes of `verify_challenge_response`. -/
inductive VerifyReason where
  | challenge_not_found_or_expired
  | challenge_expired
  | response_too_slow
  | incorrect_answer
  | verified_fast_response
  | verified
  deriving DecidableEq, Repr

/-- The `verify_challenge_response(challenge_id, answer, response_time_ms)` from
`utils/agent_verification.py`.  `now` is the `datetime.utcnow()` reading
during verification.  Returns the updated in-memory challenge store and the
`(is_valid, reason)` pair. -/
def verify_challenge_response (store : List (String × Challenge))
    (challenge_id answer : String) (response_time_ms : ℚ) (now : ℚ) :
    List (String × Challenge) × Bool × VerifyReason :=
  match store.find? (fun p => p.1 == challenge_id) with
  | none => (store, false, .challenge_not_found_or_expired)
  | some p =>
    let ch := p.2
    if ch.expires_at < now then
      (store.filter (fun q => q.1 != challenge_id), false, .challenge_expired)
    else if ch.max_response_time_ms < response_time_ms then
      (store, false, .response_too_slow)
    else if pyStrip answer.data ≠ pyStrip ch.expected_answer.data then
      (store, false, .incorrect_answer)
    else
      (store.filter (fun q => q.1 != challenge_id), true,
        if response_time_ms < 1000 then .verified_fast_response else .verified)

/-- The `verify_registration(challenge_id, answer, start_time)`:
`response_time_ms = (datetime.utcnow() - start_time).total_seconds() * 1000`
(the two `utcnow()` readings inside one verification are modelled as the
same instant `now`). -/
def verify_registration (store : List (String × Challenge))
    (challenge_id answer : String) (start_time now : ℚ) :
    List (String × Challenge) × Bool × VerifyReason :=
  verify_challenge_response store challenge_id answer ((now - start_time) * 1000) now

/-- The verification step of `register_agent` in `routers/agents.py`: the
router samples `request_start = datetime.utcnow()` at the top of handling
the registration request — not the challenge's issuance time — and passes
it to `verify_registration` as `start_time`.  `request_start` is the
handler-entry instant, `now` the instant of verification
(`request_start ≤ now`, typically by microseconds). -/
def register_agent_verify (store : List (String × Challenge))
    (challenge_id answer : String) (request_start now : ℚ) :
    List (String × Challenge) × Bool × VerifyReason :=
  verify_registration store challenge_id answer request_start now

/-! ## `routers/agents.py`: credit transfer -/

/-- The `CreditsTransfer` request schema (`amount` is validated `> 0` by
the schema layer). -/
structure CreditsTransfer where
  recipient_id : String
  amount : ℚ

/-- The failure modes of `transfer_credits` (HTTP 400/404/400/400). -/
inductive TransferErr where
  | insufficientCredits
  | recipientNotFound
  | selfTransfer
  | recipientNotActive
  deriving DecidableEq, Repr

/-- The `transfer_credits` from `routers/agents.py`.  On success returns the
debited sender and the credited recipient (the only two rows the commit
touches). -/
def transfer_credits (transfer : CreditsTransfer) (current_agent : Agent)
    (db : List Agent) : Except TransferErr (Agent × Agent) :=
  if current_agent.credits < transfer.amount then .error .insufficientCredits
  else
    match db.find? (fun a => a.id == transfer.recipient_id) with
    | none => .error .recipientNotFound
    | some recipient =>
      if recipient.id = current_agent.id then .error .selfTransfer
      else if recipient.status ≠ .active then .error .recipientNotActive
      else
        .ok ({ current_agent with credits := current_agent.credits - transfer.amount },
             { recipient with credits := recipient.credits + transfer.amount })

/-! ## `routers/transactions.py`: purchase -/

/-- The `settings.TRANSACTION_FEE_PERCENT` (2.5). -/
def TRANSACTION_FEE_PERCENT : ℚ :=
  5/2

/-- The `TransactionCreate` request schema (`quantity` is validated `≥ 1`
by the schema layer). -/
structure PurchaseRequest where
  listing_id : String
  quantity : ℕ

/-- The failure modes of `create_purchase` (HTTP 404/400/400/400/400). -/
inductive PurchaseErr where
  | listingNotFound
  | listingNotAvailable
  | ownListing
  | quantityExceedsAvailable
  | insufficientCredits
  deriving DecidableEq, Repr

/-- The `create_purchase` from `routers/transactions.py`.  `newId` stands for
the random `generate_id()` value.  On success returns the debited buyer,
the updated listing and the created `pending` transaction. -/
def create_purchase (req : PurchaseRequest) (current_agent : Agent)
    (listings : List Listing) (newId : String) :
    Except PurchaseErr (Agent × Listing × Transaction) :=
  match listings.find? (fun l => l.id == req.listing_id) with
  | none => .error .listingNotFound
  | some listing =>
    if listing.status ≠ .active then .error .listingNotAvailable
    else if listing.seller_id = current_agent.id then .error .ownListing
    else if listing.quantity < req.quantity then .error .quantityExceedsAvailable
    else
      let total_amount := listing.price * (req.quantity : ℚ)
      let fee_net := calculate_transaction_fee total_amount TRANSACTION_FEE_PERCENT
      if current_agent.credits < total_amount then .error .insufficientCredits
      else
        let newQty := listing.quantity - req.quantity
        let listing' :=
          { listing with quantity := newQty,
                         status := if newQty = 0 then .sold else listing.status }
        let txn : Transaction :=
          { id := newId, listing_id := listing.id, buyer_id := current_agent.id,
            seller_id := listing.seller_id, quantity := req.quantity,
            unit_price := listing.price, total_amount := total_amount,
            fee_amount := fee_net.1, net_amount := fee_net.2,
            status := .pending }
        let buyer :=
          { current_agent with credits := current_agent.credits - total_amount,
                               total_purchases := current_agent.total_purchases + 1 }
        .ok (buyer, listing', txn)

/-! ## `routers/ratings.py`: rating creation -/

/-- The failure modes of `create_rating` (HTTP 404/403/400/400);
`rateeMissing` models the `scalar_one()` exception, unreachable under
referential integrity. -/
inductive RatingErr where
  | transactionNotFound
  | notPartOfTransaction
  | notCompleted
  | alreadyRated
  | rateeMissing
  deriving DecidableEq, Repr

/-- The `create_rating` from `routers/ratings.py` (`score` is validated 1–5 by
the schema layer).  On success returns the created rating row and the
ratee with the folded-in average. -/
def create_rating (transaction_id : String) (score : ℕ) (current_agent : Agent)
    (transactions : List Transaction) (ratings : List RatingRecord)
    (agents : List Agent) (newId : String) :
    Except RatingErr (RatingRecord × Agent) :=
  match transactions.find? (fun t => t.id == transaction_id) with
  | none => .error .transactionNotFound
  | some txn =>
    if txn.buyer_id ≠ current_agent.id ∧ txn.seller_id ≠ current_agent.id then
      .error .notPartOfTransaction
    else if txn.status ≠ .completed then .error .notCompleted
    else
      let ratee_id := if current_agent.id = txn.buyer_id then txn.seller_id else txn.buyer_id
      if (ratings.find? fun r =>
          r.transaction_id == transaction_id && r.rater_id == current_agent.id).isSome then
        .error .alreadyRated
      else
        match agents.find? (fun a => a.id == ratee_id) with
        | none => .error .rateeMissing
        | some ratee =>
          let total_score := ratee.rating_avg * (ratee.rating_count : ℚ) + (score : ℚ)
          let new_count := ratee.rating_count + 1
          let ratee' :=
            { ratee with rating_count := new_count,
                         rating_avg := pyRound2 (total_score / (new_count : ℚ)) }
          .ok ({ id := newId, transaction_id := transaction_id,
                 rater_id := current_agent.id, ratee_id := ratee_id, score := score },
               ratee')

/-! ## `routers/listings.py`: listing creation -/

/-- The `settings.MIN_LISTING_PRICE` (0.01). -/
def MIN_LISTING_PRICE : ℚ :=
  1/100

/-- The `settings.MAX_LISTING_PRICE` (1,000,000.00). -/
def MAX_LISTING_PRICE : ℚ :=
  1000000

/-- The failure modes of `create_listing` (all HTTP 400).  The Guardian
rejection carries the review decision. -/
inductive CreateListingErr where
  | guardianRejected (review : ReviewResult)
  | invalidCategory
  | priceBelowMinimum
  | priceAboveMaximum
  deriving DecidableEq, Repr

/-- The `ListingCreate` request fields the embedded handler reads. -/
structure ListingCreateData where
  title : String
  description : String
  tags : List String
  category_id : Option String
  price : ℚ
  quantity : ℕ

/-- The `create_listing` from `routers/listings.py`: Guardian review first (any
non-approved outcome is an HTTP 400 rejection), then category validation,
then the global price bounds, then the row is created with `active`
status.  Returns the updated Guardian state alongside the outcome. -/
def create_listing (gst : GuardianState) (now : ℚ) (current_agent : Agent)
    (data : ListingCreateData) (categories : List Category) (newId : String) :
    GuardianState × Except CreateListingErr Listing :=
  let rst := review_listing gst now "pending" data.title data.description data.tags
    current_agent.id
  let review := rst.1
  let gst := rst.2
  if review.approved = false then (gst, .error (.guardianRejected review))
  else
    let categoryOk :=
      match data.category_id with
      | none => true
      | some cid => (categories.find? fun c => c.id == cid && c.is_active).isSome
    if categoryOk = false then (gst, .error .invalidCategory)
    else if data.price < MIN_LISTING_PRICE then (gst, .error .priceBelowMinimum)
    else if MAX_LISTING_PRICE < data.price then (gst, .error .priceAboveMaximum)
    else
      (gst, .ok { id := newId, seller_id := current_agent.id, title := data.title,
                  description := data.description, price := data.price,
                  quantity := data.quantity, status := .active })


/-! ## Supporting lemmas for `slugify` idempotence -/

/-- Every character either is fixed by `lowerA` or is sent to a lowercase
letter. -/
theorem lowerA_split (c : Char) :
    lowerA c = c ∨ lowerA c ∈ ("abcdefghijklmnopqrstuvwxyz").data := by
  unfold lowerA
  cases hf : lowerPairs.find? (fun p => p.1 == c) with
  | none => exact Or.inl rfl
  | some p =>
    have hp : p ∈ lowerPairs := List.mem_of_find?_eq_some hf
    have hall : ∀ q ∈ lowerPairs, q.2 ∈ ("abcdefghijklmnopqrstuvwxyz").data := by decide
    exact Or.inr (hall p hp)

/-- The `lowerA` fixes every lowercase letter. -/
theorem lowerA_lower_fixed : ∀ y ∈ ("abcdefghijklmnopqrstuvwxyz").data, lowerA y = y := by
  decide

/-- The `lowerA` is idempotent. -/
theorem lowerA_idem (c : Char) : lowerA (lowerA c) = lowerA c := by
  rcases lowerA_split c with h | h
  · rw [h, h]
  · exact lowerA_lower_fixed _ h

/-- The `lowerA` preserves the ASCII range. -/
theorem lowerA_ascii (c : Char) (h : c.toNat < 128) : (lowerA c).toNat < 128 := by
  rcases lowerA_split c with h' | h'
  · rw [h']; exact h
  · have hall : ∀ y ∈ ("abcdefghijklmnopqrstuvwxyz").data, y.toNat < 128 := by decide
    exact hall _ h'

/-- Mapping a function that fixes every element of a list is the identity. -/
theorem listMapFixed {α : Type} (f : α → α) (l : List α) (h : ∀ a ∈ l, f a = a) :
    l.map f = l := by
  induction l with
  | nil => rfl
  | cons a t ih =>
    rw [List.map_cons, h a (by simp), ih (fun b hb => h b (List.mem_cons_of_mem _ hb))]

/-- Characters of `collapseSep l` are hyphens or non-separator characters
of `l`. -/
theorem mem_collapseSep (c : Char) (l : List Char) (h : c ∈ collapseSep l) :
    c = '-' ∨ (c ∈ l ∧ isSepC c = false) := by
  induction l using collapseSep.induct with
  | case1 => simp [collapseSep] at h
  | case2 d hs =>
    rw [collapseSep, if_pos hs] at h
    exact Or.inl (List.mem_singleton.mp h)
  | case3 d hs =>
    simp only [Bool.not_eq_true] at hs
    rw [collapseSep, if_neg (by simp [hs])] at h
    have hc : c = d := List.mem_singleton.mp h
    subst hc
    exact Or.inr ⟨List.mem_singleton.mpr rfl, hs⟩
  | case4 a d rest hsep ih =>
    rw [collapseSep, if_pos hsep] at h
    rcases ih h with h1 | h2
    · exact Or.inl h1
    · exact Or.inr ⟨List.mem_cons_of_mem _ h2.1, h2.2⟩
  | case5 a d rest hsep ih =>
    rw [collapseSep, if_neg hsep] at h
    rcases List.mem_cons.mp h with h1 | h2
    · by_cases ha : isSepC a = true
      · exact Or.inl (by simpa [ha] using h1)
      · subst h1
        simp only [Bool.not_eq_true] at ha
        simp [ha]
    · rcases ih h2 with h1 | h3
      · exact Or.inl h1
      · exact Or.inr ⟨List.mem_cons_of_mem _ h3.1, h3.2⟩

/-- The `noAdjSep l`: no two adjacent characters of `l` are both separator
characters (auxiliary normal-form predicate). -/
def noAdjSep : List Char → Bool
  | [] => true
  | [_] => true
  | c :: d :: rest => !(isSepC c && isSepC d) && noAdjSep (d :: rest)

theorem noAdjSep_tail (c : Char) (l : List Char) (h : noAdjSep (c :: l) = true) :
    noAdjSep l = true := by
  cases l with
  | nil => rfl
  | cons d t =>
    rw [noAdjSep] at h
    simp only [Bool.and_eq_true] at h
    exact h.2

theorem noAdjSep_cons (c : Char) (l : List Char) (hc : isSepC c = false)
    (hl : noAdjSep l = true) : noAdjSep (c :: l) = true := by
  cases l with
  | nil => rfl
  | cons d t =>
    rw [noAdjSep, hc]
    simpa using hl

theorem collapseSep_cons_of_nonsep (d : Char) (rest : List Char) (hd : isSepC d = false) :
    ∃ t, collapseSep (d :: rest) = d :: t := by
  cases rest with
  | nil => exact ⟨[], by rw [collapseSep, if_neg (by simp [hd])]⟩
  | cons e r =>
    exact ⟨collapseSep (e :: r), by rw [collapseSep, if_neg (by simp [hd]), if_neg (by simp [hd])]⟩

/-- The `collapseSep` never produces two adjacent separator characters. -/
theorem noAdjSep_collapseSep (l : List Char) : noAdjSep (collapseSep l) = true := by
  induction l using collapseSep.induct with
  | case1 => rfl
  | case2 c hs => rw [collapseSep, if_pos hs]; rfl
  | case3 c hs => rw [collapseSep, if_neg hs]; rfl
  | case4 c d rest hsep ih => rw [collapseSep, if_pos hsep]; exact ih
  | case5 c d rest hsep ih =>
    rw [collapseSep, if_neg hsep]
    by_cases hd : isSepC d = true
    · have hc : isSepC c = false := by
        cases hcs : isSepC c with
        | false => rfl
        | true => exact absurd (by simp [hcs, hd]) hsep
      rw [if_neg (by simp [hc])]
      exact noAdjSep_cons c _ hc ih
    · simp only [Bool.not_eq_true] at hd
      obtain ⟨t, ht⟩ := collapseSep_cons_of_nonsep d rest hd
      rw [ht]
      have hdt : noAdjSep (d :: t) = true := ht ▸ ih
      by_cases hc : isSepC c = true
      · rw [if_pos hc, noAdjSep, hd]
        simpa using hdt
      · rw [if_neg hc, noAdjSep]
        simp only [Bool.not_eq_true] at hc
        rw [hc]
        simpa using hdt

/-- The `collapseSep` is the identity on lists with no adjacent separators
whose only separator character is the hyphen. -/
theorem collapseSep_eq_self (l : List Char) (h1 : noAdjSep l = true)
    (h2 : ∀ c ∈ l, isSepC c = true → c = '-') : collapseSep l = l := by
  induction l using collapseSep.induct with
  | case1 => rfl
  | case2 c hs => rw [collapseSep, if_pos hs, h2 c (by simp) hs]
  | case3 c hs => rw [collapseSep, if_neg hs]
  | case4 c d rest hsep ih =>
    rw [noAdjSep, hsep] at h1
    simp at h1
  | case5 c d rest hsep ih =>
    rw [collapseSep, if_neg hsep]
    rw [ih (noAdjSep_tail _ _ h1) (fun x hx hs => h2 x (List.mem_cons_of_mem _ hx) hs)]
    by_cases hc : isSepC c = true
    · rw [if_pos hc, h2 c (by simp) hc]
    · rw [if_neg hc]

theorem noAdjSep_append_right (a b : List Char) (h : noAdjSep (a ++ b) = true) :
    noAdjSep b = true := by
  induction a with
  | nil => exact h
  | cons x xs ih => exact ih (noAdjSep_tail _ _ h)

theorem noAdjSep_append_left (a b : List Char) (h : noAdjSep (a ++ b) = true) :
    noAdjSep a = true := by
  induction a with
  | nil => rfl
  | cons x xs ih =>
    cases xs with
    | nil => rfl
    | cons y ys =>
      simp only [List.cons_append] at h
      rw [noAdjSep] at h
      simp only [Bool.and_eq_true] at h
      obtain ⟨hxy, hrest⟩ := h
      rw [noAdjSep]
      simp only [Bool.and_eq_true]
      exact ⟨hxy, ih (by simpa using hrest)⟩

theorem dropWhile_head_not {p : Char → Bool} {l : List Char} {c : Char} {t : List Char}
    (h : l.dropWhile p = c :: t) : p c = false := by
  induction l with
  | nil => simp at h
  | cons a l ih =>
    by_cases hp : p a = true
    · rw [List.dropWhile_cons, if_pos hp] at h
      exact ih h
    · rw [List.dropWhile_cons, if_neg hp] at h
      obtain ⟨rfl, -⟩ := List.cons.injEq .. ▸ h
      simpa using hp

theorem noAdjSep_dropWhile (p : Char → Bool) (l : List Char) (h : noAdjSep l = true) :
    noAdjSep (l.dropWhile p) = true := by
  induction l with
  | nil => rfl
  | cons c t ih =>
    by_cases hp : p c = true
    · rw [List.dropWhile_cons, if_pos hp]
      exact ih (noAdjSep_tail _ _ h)
    · rw [List.dropWhile_cons, if_neg hp]
      exact h

theorem mem_dropWhile (p : Char → Bool) (l : List Char) (c : Char)
    (h : c ∈ l.dropWhile p) : c ∈ l := by
  induction l with
  | nil => simp at h
  | cons a t ih =>
    by_cases hp : p a = true
    · rw [List.dropWhile_cons, if_pos hp] at h
      exact List.mem_cons_of_mem _ (ih h)
    · rw [List.dropWhile_cons, if_neg hp] at h
      exact h

/-- The part `str.strip("-")` removes from the right, exhibited:
`dropWhile (== '-') l` is `stripDash l` followed by a run of hyphens. -/
theorem dropWhile_eq_stripDash_append (l : List Char) :
    ∃ post, l.dropWhile (· == '-') = stripDash l ++ post := by
  refine ⟨((l.dropWhile (· == '-')).reverse.takeWhile (· == '-')).reverse, ?_⟩
  unfold stripDash
  conv_lhs => rw [← List.reverse_reverse (l.dropWhile (· == '-'))]
  conv_lhs =>
    rw [← List.takeWhile_append_dropWhile (p := (· == '-'))
      (l := (l.dropWhile (· == '-')).reverse)]
  rw [List.reverse_append]

/-- The `stripDash l` sits inside `l` between a left and right run of hyphens. -/
theorem stripDash_decomp (l : List Char) :
    ∃ pre post, l = pre ++ (stripDash l ++ post) := by
  obtain ⟨post, hpost⟩ := dropWhile_eq_stripDash_append l
  refine ⟨l.takeWhile (· == '-'), post, ?_⟩
  conv_lhs => rw [← List.takeWhile_append_dropWhile (p := (· == '-')) (l := l)]
  rw [hpost]

theorem noAdjSep_stripDash (l : List Char) (h : noAdjSep l = true) :
    noAdjSep (stripDash l) = true := by
  obtain ⟨pre, post, hd⟩ := stripDash_decomp l
  rw [hd] at h
  exact noAdjSep_append_left _ _ (noAdjSep_append_right _ _ h)

theorem mem_stripDash (l : List Char) (c : Char) (h : c ∈ stripDash l) : c ∈ l := by
  obtain ⟨pre, post, hd⟩ := stripDash_decomp l
  rw [hd]
  simp only [List.mem_append]
  exact Or.inr (Or.inl h)

/-- The head of `stripDash l` is never a hyphen. -/
theorem stripDash_head (l : List Char) (c : Char) (t : List Char)
    (h : stripDash l = c :: t) : (c == '-') = false := by
  obtain ⟨post, hpost⟩ := dropWhile_eq_stripDash_append l
  rw [h] at hpost
  exact dropWhile_head_not (p := (· == '-')) (l := l) (by simpa using hpost)

/-- The last character of `stripDash l` is never a hyphen. -/
theorem stripDash_last (l : List Char) (c : Char) (t : List Char)
    (h : (stripDash l).reverse = c :: t) : (c == '-') = false := by
  have hrev : (stripDash l).reverse = (l.dropWhile (· == '-')).reverse.dropWhile (· == '-') := by
    unfold stripDash
    rw [List.reverse_reverse]
  rw [hrev] at h
  exact dropWhile_head_not (p := (· == '-')) h

/-- The `str.strip("-")` is the identity when neither end is a hyphen. -/
theorem stripDash_eq_self (l : List Char)
    (hh : ∀ c t, l = c :: t → (c == '-') = false)
    (hl : ∀ c t, l.reverse = c :: t → (c == '-') = false) : stripDash l = l := by
  have h1 : l.dropWhile (· == '-') = l := by
    cases l with
    | nil => rfl
    | cons a t =>
      have ha := hh a t rfl
      rw [List.dropWhile_cons, if_neg (by simp [ha])]
  unfold stripDash
  rw [h1]
  have h2 : l.reverse.dropWhile (· == '-') = l.reverse := by
    cases hr : l.reverse with
    | nil => rfl
    | cons a t => rw [List.dropWhile_cons, if_neg (by simpa using hl a t hr)]
  rw [h2, List.reverse_reverse]

/-- Every character of a `slugifyL` output is ASCII, fixed by lowercasing,
kept by the `[^\w\s-]` filter, and is a hyphen if it is a separator at
all. -/
theorem slugifyL_chars (s : List Char) :
    ∀ c ∈ slugifyL s,
      (c.toNat < 128 ∧ lowerA c = c) ∧ isKeepC c = true ∧ (isSepC c = true → c = '-') := by
  intro c hc
  have hc4 := mem_stripDash _ _ hc
  rcases mem_collapseSep _ _ hc4 with h | h3
  · subst h
    exact ⟨⟨by decide, by decide⟩, by decide, fun _ => rfl⟩
  · obtain ⟨h3, hns⟩ := h3
    rw [List.mem_filter] at h3
    obtain ⟨h2, hkeep⟩ := h3
    rw [lowerL, List.mem_map] at h2
    obtain ⟨c₀, hc₀, rfl⟩ := h2
    rw [List.mem_filter] at hc₀
    have hc₀a : c₀.toNat < 128 := by simpa using hc₀.2
    refine ⟨⟨lowerA_ascii c₀ hc₀a, lowerA_idem c₀⟩, hkeep, fun hs => ?_⟩
    rw [hns] at hs
    exact Bool.noConfusion hs

/-- The `slugifyL` is idempotent. -/
theorem slugifyL_idem (s : List Char) : slugifyL (slugifyL s) = slugifyL s := by
  have hmem := slugifyL_chars s
  have e1 : (slugifyL s).filter (fun c => c.toNat < 128) = slugifyL s :=
    List.filter_eq_self.mpr (fun a ha => by simpa using (hmem a ha).1.1)
  have e2 : lowerL (slugifyL s) = slugifyL s :=
    listMapFixed lowerA _ (fun a ha => (hmem a ha).1.2)
  have e3 : (slugifyL s).filter isKeepC = slugifyL s :=
    List.filter_eq_self.mpr (fun a ha => (hmem a ha).2.1)
  have e4 : collapseSep (slugifyL s) = slugifyL s := by
    apply collapseSep_eq_self
    · exact noAdjSep_stripDash _ (noAdjSep_collapseSep _)
    · exact fun c hc hs => (hmem c hc).2.2 hs
  have e5 : stripDash (slugifyL s) = slugifyL s := by
    apply stripDash_eq_self
    · intro c t hct
      exact stripDash_head _ c t hct
    · intro c t hct
      exact stripDash_last _ c t hct
  show stripDash (collapseSep ((lowerL ((slugifyL s).filter (fun c => c.toNat < 128))).filter isKeepC)) = slugifyL s
  rw [e1, e2, e3, e4, e5]

/-- C9: `slugify` is idempotent — for every input string `s`,
`slugify(slugify(s)) = slugify(s)` — and on the concrete input
`"AI Services & Tools"` it returns `"ai-services-tools"`. -/
theorem slugify_spec :
    (∀ s : String, slugify (slugify s) = slugify s) ∧
    slugify "AI Services & Tools" = "ai-services-tools" := by
  constructor
  · intro s
    show (⟨slugifyL (slugify s).data⟩ : String) = ⟨slugifyL s.data⟩
    have hdata : (slugify s).data = slugifyL s.data := rfl
    rw [hdata, slugifyL_idem]
  · decide

/-! ## Supporting lemmas for `pyRound2` -/

/-- The `round(x, 2)` is the identity on every exact multiple of 1/100. -/
theorem pyRound2_int_div (m : ℤ) : pyRound2 ((m : ℚ)/100) = (m : ℚ)/100 := by
  have h : ((m : ℚ)/100) * 100 = (m : ℚ) := by
    field_simp
  simp only [pyRound2]
  rw [h, Int.floor_intCast]
  norm_num

/-- Every `round(x, 2)` value is an exact multiple of 1/100. -/
theorem pyRound2_form (x : ℚ) : ∃ m : ℤ, pyRound2 x = (m : ℚ)/100 := by
  unfold pyRound2
  exact ⟨_, rfl⟩

/-- C8 counterexample: at amount 0.255 (= 51/200) and fee percent 2.5 the
code returns fee 0.01 and net 0.24, whose sum 0.25 differs from the total
rounded to 2 decimals, 0.26 — refuting "fee + net equals the total rounded
to 2 decimals for every non-negative amount". -/
theorem fee_plus_net_ne_rounded_total_cex :
    calculate_transaction_fee (51/200) (5/2) = (1/100, 6/25) ∧
    pyRound2 (51/200) = 13/50 ∧
    (1/100 : ℚ) + 6/25 ≠ 13/50 := by
  refine ⟨?_, ?_, by norm_num⟩
  · norm_num [calculate_transaction_fee, pyRound2]
  · norm_num [pyRound2]

/-- C8 (amended): `calculate_transaction_fee` returns
`(round(amount*feePercent/100, 2), round(amount - fee, 2))`; for amount
100.0 and feePercent 2.5 it returns fee 2.5 and net 97.5; and
`fee + net` equals the (rounded) total for every non-negative amount that
is an exact multiple of 0.01 — not for arbitrary non-negative amounts
(see the counterexample at 0.255). -/
theorem calculate_transaction_fee_spec :
    calculate_transaction_fee 100 (5/2) = (5/2, 195/2) ∧
    ∀ (n : ℕ) (fee_percent : ℚ),
      (calculate_transaction_fee ((n : ℚ)/100) fee_percent).1 +
        (calculate_transaction_fee ((n : ℚ)/100) fee_percent).2 = pyRound2 ((n : ℚ)/100) ∧
      pyRound2 ((n : ℚ)/100) = (n : ℚ)/100 := by
  constructor
  · norm_num [calculate_transaction_fee, pyRound2]
  · intro n p
    have hn : pyRound2 ((n : ℚ)/100) = (n : ℚ)/100 := by
      have h := pyRound2_int_div (n : ℤ)
      push_cast at h
      exact h
    refine ⟨?_, hn⟩
    obtain ⟨k, hk⟩ := pyRound2_form (((n : ℚ)/100) * (p/100))
    show pyRound2 (((n : ℚ)/100) * (p/100)) +
      pyRound2 ((n : ℚ)/100 - pyRound2 (((n : ℚ)/100) * (p/100))) = pyRound2 ((n : ℚ)/100)
    rw [hk]
    have h2 : (n : ℚ)/100 - (k : ℚ)/100 = ((n - k : ℤ) : ℚ)/100 := by
      push_cast
      ring
    rw [h2, pyRound2_int_div, hn]
    push_cast
    ring

/-! ## Supporting lemma for `paginate` -/

/-- The integer formula `(t + p - 1) / p` computes the ceiling of the exact
division `t / p`. -/
theorem add_pred_div_eq_ceil (t p : ℕ) (hp : 1 ≤ p) :
    (t + p - 1) / p = ⌈(t : ℚ) / (p : ℚ)⌉₊ := by
  have hp0 : 0 < p := hp
  have hppos : (0 : ℚ) < (p : ℚ) := by exact_mod_cast hp0
  apply le_antisymm
  · have h1 : (t : ℚ) / (p : ℚ) ≤ ((⌈(t : ℚ) / (p : ℚ)⌉₊ : ℕ) : ℚ) := Nat.le_ceil _
    have h2 : (t : ℚ) ≤ ((⌈(t : ℚ) / (p : ℚ)⌉₊ : ℕ) : ℚ) * (p : ℚ) := by
      rwa [div_le_iff₀ hppos] at h1
    have h3 : t ≤ ⌈(t : ℚ) / (p : ℚ)⌉₊ * p := by exact_mod_cast h2
    rw [Nat.div_le_iff_le_mul_add_pred hp0]
    rw [mul_comm] at h3
    omega
  · rw [Nat.ceil_le, div_le_iff₀ hppos]
    have h6 := Nat.lt_div_mul_add (a := t + p - 1) hp0
    have h5 : t ≤ (t + p - 1)/p * p := by omega
    exact_mod_cast h5

/-- C10: for every item list, `page ≥ 1` and `page_size ≥ 1`, `paginate`
returns `total` equal to the list's length, `total_pages` equal to
`ceil(total / page_size)` (so total 45 with page size 20 gives 3 pages and
total 0 gives 0 pages), and never more than `page_size` items. -/
theorem paginate_spec :
    (∀ (α : Type) (items : List α) (page page_size : ℕ),
      1 ≤ page → 1 ≤ page_size →
      (paginate items page page_size).total = items.length ∧
      (paginate items page page_size).total_pages =
        ⌈(items.length : ℚ) / (page_size : ℚ)⌉₊ ∧
      (paginate items page page_size).items.length ≤ page_size) ∧
    (paginate (List.range 45) 1 20).total_pages = 3 ∧
    (paginate ([] : List ℕ) 1 20).total_pages = 0 := by
  refine ⟨?_, by decide, by decide⟩
  intro α items page page_size hpage hsize
  refine ⟨rfl, add_pred_div_eq_ceil items.length page_size hsize, ?_⟩
  show ((items.drop ((page - 1) * page_size)).take page_size).length ≤ page_size
  rw [List.length_take]
  exact Nat.min_le_left _ _

/-- Witness for C10 at a concrete input. -/
theorem paginate_spec_witness :
    (1 : ℕ) ≤ 2 ∧ (1 : ℕ) ≤ 3 ∧
    ((paginate (List.range 7) 2 3).total = 7 ∧
     (paginate (List.range 7) 2 3).total_pages = ⌈(7 : ℚ) / (3 : ℚ)⌉₊ ∧
     (paginate (List.range 7) 2 3).items.length ≤ 3) := by
  refine ⟨by norm_num, by norm_num, ?_⟩
  have h := paginate_spec.1 ℕ (List.range 7) 2 3 (by norm_num) (by norm_num)
  simpa using h

/-- C3: for every credit transfer of amount A from agent X to agent Y — if
the transfer succeeds the post-transfer balances are exactly Bx−A and By+A
(total conserved), and the transfer fails with an error (producing no
updated rows) whenever A exceeds X's balance, Y does not exist, Y = X, or
Y's status is not active; otherwise it succeeds with exactly those
balances. -/
theorem transfer_credits_spec :
    ∀ (t : CreditsTransfer) (x : Agent) (db : List Agent),
      0 < t.amount →
      (∀ x' y', transfer_credits t x db = .ok (x', y') →
        x'.credits = x.credits - t.amount ∧
        ∃ y, db.find? (fun a => a.id == t.recipient_id) = some y ∧
          y'.credits = y.credits + t.amount ∧
          x'.credits + y'.credits = x.credits + y.credits) ∧
      (x.credits < t.amount → transfer_credits t x db = .error .insufficientCredits) ∧
      (t.amount ≤ x.credits → db.find? (fun a => a.id == t.recipient_id) = none →
        transfer_credits t x db = .error .recipientNotFound) ∧
      (∀ y, t.amount ≤ x.credits → db.find? (fun a => a.id == t.recipient_id) = some y →
        y.id = x.id → transfer_credits t x db = .error .selfTransfer) ∧
      (∀ y, t.amount ≤ x.credits → db.find? (fun a => a.id == t.recipient_id) = some y →
        y.id ≠ x.id → y.status ≠ .active →
        transfer_credits t x db = .error .recipientNotActive) ∧
      (∀ y, t.amount ≤ x.credits → db.find? (fun a => a.id == t.recipient_id) = some y →
        y.id ≠ x.id → y.status = .active →
        transfer_credits t x db =
          .ok ({ x with credits := x.credits - t.amount },
               { y with credits := y.credits + t.amount })) := by
  intro t x db _hamt
  refine ⟨?_, ?_, ?_, ?_, ?_, ?_⟩
  · intro x' y' hok
    unfold transfer_credits at hok
    split at hok
    · exact absurd hok (by simp)
    · split at hok
      · exact absurd hok (by simp)
      · rename_i y hfind
        split at hok
        · exact absurd hok (by simp)
        · split at hok
          · exact absurd hok (by simp)
          · simp only [Except.ok.injEq, Prod.mk.injEq] at hok
            obtain ⟨hx, hy⟩ := hok
            subst hx
            subst hy
            exact ⟨rfl, y, hfind, rfl, by ring⟩
  · intro hlt
    unfold transfer_credits
    rw [if_pos hlt]
  · intro hge hnone
    unfold transfer_credits
    rw [if_neg (not_lt.mpr hge), hnone]
  · intro y hge hfind hid
    unfold transfer_credits
    rw [if_neg (not_lt.mpr hge), hfind]
    dsimp only
    rw [if_pos hid]
  · intro y hge hfind hid hstatus
    unfold transfer_credits
    rw [if_neg (not_lt.mpr hge), hfind]
    dsimp only
    rw [if_neg hid, if_pos hstatus]
  · intro y hge hfind hid hstatus
    unfold transfer_credits
    rw [if_neg (not_lt.mpr hge), hfind]
    dsimp only
    rw [if_neg hid, if_neg (by simp [hstatus])]

/-- Witness for C3: a concrete successful transfer of 30 credits. -/
theorem transfer_credits_spec_witness :
    (0 : ℚ) < 30 ∧
    transfer_credits ⟨"y1", 30⟩
        ⟨"x1", "kx", .active, 100, 0, 0, 0, 0, none⟩
        [⟨"y1", "ky", .active, 40, 0, 0, 0, 0, none⟩] =
      .ok ({ (⟨"x1", "kx", .active, 100, 0, 0, 0, 0, none⟩ : Agent) with
               credits := Agent.credits ⟨"x1", "kx", .active, 100, 0, 0, 0, 0, none⟩ - 30 },
           { (⟨"y1", "ky", .active, 40, 0, 0, 0, 0, none⟩ : Agent) with
               credits := Agent.credits ⟨"y1", "ky", .active, 40, 0, 0, 0, 0, none⟩ + 30 }) := by
  refine ⟨by norm_num, ?_⟩
  exact (transfer_credits_spec ⟨"y1", 30⟩
      ⟨"x1", "kx", .active, 100, 0, 0, 0, 0, none⟩
      [⟨"y1", "ky", .active, 40, 0, 0, 0, 0, none⟩] (by norm_num)).2.2.2.2.2
    ⟨"y1", "ky", .active, 40, 0, 0, 0, 0, none⟩
    (by norm_num) rfl (by decide) rfl

/-- C4: for every successful purchase of quantity q against an active
listing, the buyer's credits decrease immediately by the full total
(unit price × q), the listing's quantity decreases by q, the status becomes
`sold` exactly when the quantity reaches 0, fee/net come from the global
fee percentage, a `pending` transaction is created and the buyer's purchase
counter increments; a purchase against a non-active listing fails (producing
no updated rows). -/
theorem create_purchase_spec :
    ∀ (req : PurchaseRequest) (buyer : Agent) (listings : List Listing) (newId : String)
      (listing : Listing),
      listings.find? (fun l => l.id == req.listing_id) = some listing →
      1 ≤ req.quantity →
      (listing.status = .active → listing.seller_id ≠ buyer.id →
        req.quantity ≤ listing.quantity →
        listing.price * (req.quantity : ℚ) ≤ buyer.credits →
        ∃ buyer' listing' txn,
          create_purchase req buyer listings newId = .ok (buyer', listing', txn) ∧
          buyer'.credits = buyer.credits - listing.price * (req.quantity : ℚ) ∧
          buyer'.total_purchases = buyer.total_purchases + 1 ∧
          listing'.quantity = listing.quantity - req.quantity ∧
          (listing'.status = .sold ↔ listing.quantity - req.quantity = 0) ∧
          txn.status = .pending ∧
          txn.quantity = req.quantity ∧
          txn.unit_price = listing.price ∧
          txn.total_amount = listing.price * (req.quantity : ℚ) ∧
          txn.fee_amount =
            (calculate_transaction_fee (listing.price * (req.quantity : ℚ))
              TRANSACTION_FEE_PERCENT).1 ∧
          txn.net_amount =
            (calculate_transaction_fee (listing.price * (req.quantity : ℚ))
              TRANSACTION_FEE_PERCENT).2) ∧
      (listing.status ≠ .active →
        create_purchase req buyer listings newId = .error .listingNotAvailable) := by
  intro req buyer listings newId listing hfind _hq
  constructor
  · intro hact hsell hqty hcred
    have hstep : create_purchase req buyer listings newId =
        .ok ({ buyer with credits := buyer.credits - listing.price * (req.quantity : ℚ),
                          total_purchases := buyer.total_purchases + 1 },
             { listing with quantity := listing.quantity - req.quantity,
                            status := if listing.quantity - req.quantity = 0 then .sold
                                      else listing.status },
             { id := newId, listing_id := listing.id, buyer_id := buyer.id,
               seller_id := listing.seller_id, quantity := req.quantity,
               unit_price := listing.price,
               total_amount := listing.price * (req.quantity : ℚ),
               fee_amount := (calculate_transaction_fee (listing.price * (req.quantity : ℚ))
                 TRANSACTION_FEE_PERCENT).1,
               net_amount := (calculate_transaction_fee (listing.price * (req.quantity : ℚ))
                 TRANSACTION_FEE_PERCENT).2,
               status := .pending }) := by
      unfold create_purchase
      rw [hfind]
      dsimp only
      rw [if_neg (by simp [hact]), if_neg hsell, if_neg (not_lt.mpr hqty),
        if_neg (not_lt.mpr hcred)]
    refine ⟨_, _, _, hstep, rfl, rfl, rfl, ?_, rfl, rfl, rfl, rfl, rfl, rfl⟩
    by_cases h0 : listing.quantity - req.quantity = 0
    · simp [h0]
    · simp [h0, hact]
  · intro hne
    unfold create_purchase
    rw [hfind]
    dsimp only
    rw [if_pos hne]

/-- Witness for C4: a concrete purchase of the last unit of a listing. -/
theorem create_purchase_spec_witness :
    ([(⟨"L1", "s1", "t", "d", 10, 1, .active⟩ : Listing)].find?
        (fun l => l.id == PurchaseRequest.listing_id ⟨"L1", 1⟩) =
      some ⟨"L1", "s1", "t", "d", 10, 1, .active⟩) ∧
    (1 : ℕ) ≤ 1 ∧
    (((⟨"L1", "s1", "t", "d", 10, 1, .active⟩ : Listing).status = .active →
      Listing.seller_id ⟨"L1", "s1", "t", "d", 10, 1, .active⟩ ≠
        Agent.id ⟨"b1", "kb", .active, 100, 0, 0, 0, 0, none⟩ →
      PurchaseRequest.quantity ⟨"L1", 1⟩ ≤
        Listing.quantity ⟨"L1", "s1", "t", "d", 10, 1, .active⟩ →
      Listing.price ⟨"L1", "s1", "t", "d", 10, 1, .active⟩ *
          ((PurchaseRequest.quantity ⟨"L1", 1⟩ : ℕ) : ℚ) ≤
        Agent.credits ⟨"b1", "kb", .active, 100, 0, 0, 0, 0, none⟩ →
      ∃ buyer' listing' txn,
        create_purchase ⟨"L1", 1⟩ ⟨"b1", "kb", .active, 100, 0, 0, 0, 0, none⟩
            [⟨"L1", "s1", "t", "d", 10, 1, .active⟩] "T1" = .ok (buyer', listing', txn) ∧
        buyer'.credits =
          Agent.credits ⟨"b1", "kb", .active, 100, 0, 0, 0, 0, none⟩ -
            Listing.price ⟨"L1", "s1", "t", "d", 10, 1, .active⟩ *
              ((PurchaseRequest.quantity ⟨"L1", 1⟩ : ℕ) : ℚ) ∧
        buyer'.total_purchases =
          Agent.total_purchases ⟨"b1", "kb", .active, 100, 0, 0, 0, 0, none⟩ + 1 ∧
        listing'.quantity =
          Listing.quantity ⟨"L1", "s1", "t", "d", 10, 1, .active⟩ -
            PurchaseRequest.quantity ⟨"L1", 1⟩ ∧
        (listing'.status = .sold ↔
          Listing.quantity ⟨"L1", "s1", "t", "d", 10, 1, .active⟩ -
              PurchaseRequest.quantity ⟨"L1", 1⟩ = 0) ∧
        txn.status = .pending ∧
        txn.quantity = PurchaseRequest.quantity ⟨"L1", 1⟩ ∧
        txn.unit_price = Listing.price ⟨"L1", "s1", "t", "d", 10, 1, .active⟩ ∧
        txn.total_amount =
          Listing.price ⟨"L1", "s1", "t", "d", 10, 1, .active⟩ *
            ((PurchaseRequest.quantity ⟨"L1", 1⟩ : ℕ) : ℚ) ∧
        txn.fee_amount =
          (calculate_transaction_fee
            (Listing.price ⟨"L1", "s1", "t", "d", 10, 1, .active⟩ *
              ((PurchaseRequest.quantity ⟨"L1", 1⟩ : ℕ) : ℚ)) TRANSACTION_FEE_PERCENT).1 ∧
        txn.net_amount =
          (calculate_transaction_fee
            (Listing.price ⟨"L1", "s1", "t", "d", 10, 1, .active⟩ *
              ((PurchaseRequest.quantity ⟨"L1", 1⟩ : ℕ) : ℚ)) TRANSACTION_FEE_PERCENT).2) ∧
     ((⟨"L1", "s1", "t", "d", 10, 1, .active⟩ : Listing).status ≠ .active →
      create_purchase ⟨"L1", 1⟩ ⟨"b1", "kb", .active, 100, 0, 0, 0, 0, none⟩
          [⟨"L1", "s1", "t", "d", 10, 1, .active⟩] "T1" =
        .error .listingNotAvailable)) :=
  ⟨rfl, le_refl 1,
    create_purchase_spec ⟨"L1", 1⟩ ⟨"b1", "kb", .active, 100, 0, 0, 0, 0, none⟩
      [⟨"L1", "s1", "t", "d", 10, 1, .active⟩] "T1"
      ⟨"L1", "s1", "t", "d", 10, 1, .active⟩ rfl (le_refl 1)⟩

/-- C5: every successfully created rating with score s updates the ratee's
aggregate to `newAvg = round((oldAvg*oldCount + s)/(oldCount+1), 2)` and
`newCount = oldCount + 1`; and an agent starting at rating_avg 0.0,
rating_count 0 receiving scores 5, 3, 4 (each on its own completed
transaction) has averages 5.0, 4.0, 4.0 and final count 3. -/
theorem create_rating_spec :
    (∀ (tid : String) (score : ℕ) (rater : Agent) (transactions : List Transaction)
       (ratings : List RatingRecord) (agents : List Agent) (newId : String)
       (r : RatingRecord) (ratee' : Agent),
      create_rating tid score rater transactions ratings agents newId = .ok (r, ratee') →
      ∃ ratee, agents.find? (fun a => a.id == r.ratee_id) = some ratee ∧
        ratee'.rating_count = ratee.rating_count + 1 ∧
        ratee'.rating_avg =
          pyRound2 ((ratee.rating_avg * (ratee.rating_count : ℚ) + (score : ℚ)) /
            ((ratee.rating_count : ℚ) + 1))) ∧
    create_rating "t1" 5 ⟨"b1", "kb", .active, 100, 0, 0, 0, 0, none⟩
        [⟨"t1", "L1", "b1", "s1", 1, 10, 10, 1, 9, .completed⟩] []
        [⟨"s1", "ks", .active, 0, 0, 0, 0, 0, none⟩] "r1" =
      .ok (⟨"r1", "t1", "b1", "s1", 5⟩, ⟨"s1", "ks", .active, 0, 5, 1, 0, 0, none⟩) ∧
    create_rating "t2" 3 ⟨"b1", "kb", .active, 100, 0, 0, 0, 0, none⟩
        [⟨"t2", "L2", "b1", "s1", 1, 10, 10, 1, 9, .completed⟩] []
        [⟨"s1", "ks", .active, 0, 5, 1, 0, 0, none⟩] "r2" =
      .ok (⟨"r2", "t2", "b1", "s1", 3⟩, ⟨"s1", "ks", .active, 0, 4, 2, 0, 0, none⟩) ∧
    create_rating "t3" 4 ⟨"b1", "kb", .active, 100, 0, 0, 0, 0, none⟩
        [⟨"t3", "L3", "b1", "s1", 1, 10, 10, 1, 9, .completed⟩] []
        [⟨"s1", "ks", .active, 0, 4, 2, 0, 0, none⟩] "r3" =
      .ok (⟨"r3", "t3", "b1", "s1", 4⟩, ⟨"s1", "ks", .active, 0, 4, 3, 0, 0, none⟩) := by
  refine ⟨?_, ?_, ?_, ?_⟩
  · intro tid score rater transactions ratings agents newId r ratee' hok
    unfold create_rating at hok
    split at hok
    · simp at hok
    · split at hok
      · simp at hok
      · split at hok
        · simp at hok
        · split at hok
          all_goals
            split at hok
            · simp at hok
            · dsimp only at hok
              split at hok
              · simp at hok
              · rename_i ratee hfind
                simp only [Except.ok.injEq, Prod.mk.injEq] at hok
                obtain ⟨hr, hratee⟩ := hok
                subst hr
                subst hratee
                refine ⟨ratee, hfind, rfl, ?_⟩
                show pyRound2 _ = pyRound2 _
                congr 1
                push_cast
                ring
  · norm_num [create_rating, pyRound2]
  · norm_num [create_rating, pyRound2]
  · norm_num [create_rating, pyRound2]

/-- Witness for C5: the general fold property applied to the first concrete
rating step. -/
theorem create_rating_spec_witness :
    create_rating "t1" 5 ⟨"b1", "kb", .active, 100, 0, 0, 0, 0, none⟩
        [⟨"t1", "L1", "b1", "s1", 1, 10, 10, 1, 9, .completed⟩] []
        [⟨"s1", "ks", .active, 0, 0, 0, 0, 0, none⟩] "r1" =
      .ok (⟨"r1", "t1", "b1", "s1", 5⟩, ⟨"s1", "ks", .active, 0, 5, 1, 0, 0, none⟩) ∧
    ∃ ratee,
      ([(⟨"s1", "ks", .active, 0, 0, 0, 0, 0, none⟩ : Agent)].find?
          (fun a => a.id == RatingRecord.ratee_id ⟨"r1", "t1", "b1", "s1", 5⟩) =
        some ratee) ∧
      Agent.rating_count ⟨"s1", "ks", .active, 0, 5, 1, 0, 0, none⟩ = ratee.rating_count + 1 ∧
      Agent.rating_avg ⟨"s1", "ks", .active, 0, 5, 1, 0, 0, none⟩ =
        pyRound2 ((ratee.rating_avg * (ratee.rating_count : ℚ) + ((5 : ℕ) : ℚ)) /
          ((ratee.rating_count : ℚ) + 1)) := by
  have h1 := create_rating_spec.2.1
  exact ⟨h1, create_rating_spec.1 "t1" 5 _ _ _ _ "r1" _ _ h1⟩

/-- C6: challenge verification is single-use with the fixed failure
taxonomy — unknown id fails `challenge_not_found_or_expired`; a past-expiry
id fails `challenge_expired` and deletes the entry; an in-time
trimmed-string mismatch fails `incorrect_answer`; a correct, in-time answer
succeeds (reason `verified_fast_response` under 1000 ms, else `verified`)
and deletes the challenge, so any second submission of the same id fails
as not-found. -/
theorem verify_challenge_response_spec :
    ∀ (store : List (String × Challenge)) (cid answer : String)
      (rt now : ℚ) (e : String × Challenge),
      (store.find? (fun p => p.1 == cid) = none →
        verify_challenge_response store cid answer rt now =
          (store, false, .challenge_not_found_or_expired)) ∧
      (store.find? (fun p => p.1 == cid) = some e →
        e.2.expires_at < now →
        verify_challenge_response store cid answer rt now =
          (store.filter (fun q => q.1 != cid), false, .challenge_expired) ∧
        (store.filter (fun q => q.1 != cid)).find? (fun p => p.1 == cid) = none) ∧
      (store.find? (fun p => p.1 == cid) = some e →
        ¬e.2.expires_at < now → rt ≤ e.2.max_response_time_ms →
        pyStrip answer.data ≠ pyStrip e.2.expected_answer.data →
        verify_challenge_response store cid answer rt now =
          (store, false, .incorrect_answer)) ∧
      (store.find? (fun p => p.1 == cid) = some e →
        ¬e.2.expires_at < now → rt ≤ e.2.max_response_time_ms →
        pyStrip answer.data = pyStrip e.2.expected_answer.data →
        verify_challenge_response store cid answer rt now =
          (store.filter (fun q => q.1 != cid), true,
            if rt < 1000 then .verified_fast_response else .verified) ∧
        (store.filter (fun q => q.1 != cid)).find? (fun p => p.1 == cid) = none ∧
        ∀ (answer' : String) (rt' now' : ℚ),
          verify_challenge_response (store.filter (fun q => q.1 != cid)) cid answer' rt' now' =
            (store.filter (fun q => q.1 != cid), false, .challenge_not_found_or_expired)) := by
  have hfilter : ∀ (store : List (String × Challenge)) (cid : String),
      (store.filter (fun q => q.1 != cid)).find? (fun p => p.1 == cid) = none := by
    intro store cid
    induction store with
    | nil => rfl
    | cons p t ih =>
      by_cases hp : p.1 == cid
      · simp only [List.filter_cons]
        rw [if_neg (by simp [eq_of_beq hp])]
        exact ih
      · simp only [List.filter_cons]
        rw [if_pos (by simpa using hp), List.find?_cons_of_neg _ (by simpa using hp)]
        exact ih
  intro store cid answer rt now e
  refine ⟨?_, ?_, ?_, ?_⟩
  · intro hnone
    unfold verify_challenge_response
    rw [hnone]
  · intro hfind hexp
    refine ⟨?_, hfilter store cid⟩
    unfold verify_challenge_response
    rw [hfind]
    dsimp only
    rw [if_pos hexp]
  · intro hfind hexp hrt hmismatch
    unfold verify_challenge_response
    rw [hfind]
    dsimp only
    rw [if_neg hexp, if_neg (not_lt.mpr hrt), if_pos hmismatch]
  · intro hfind hexp hrt hmatch
    refine ⟨?_, hfilter store cid, ?_⟩
    · unfold verify_challenge_response
      rw [hfind]
      dsimp only
      rw [if_neg hexp, if_neg (not_lt.mpr hrt), if_neg (by simp [hmatch])]
    · intro answer' rt' now'
      unfold verify_challenge_response
      rw [hfilter store cid]

/-- Witness for C6: a concrete correct, fast answer succeeds once and the
repeat submission fails as not-found. -/
theorem verify_challenge_response_spec_witness :
    ([("c1", (⟨"2040", 0, 300, 30000⟩ : Challenge))].find? (fun p => p.1 == "c1") =
      some ("c1", ⟨"2040", 0, 300, 30000⟩)) ∧
    ¬(Challenge.expires_at ⟨"2040", 0, 300, 30000⟩ < (10 : ℚ)) ∧
    (500 : ℚ) ≤ Challenge.max_response_time_ms ⟨"2040", 0, 300, 30000⟩ ∧
    pyStrip (" 2040 ").data = pyStrip (Challenge.expected_answer ⟨"2040", 0, 300, 30000⟩).data ∧
    (verify_challenge_response [("c1", ⟨"2040", 0, 300, 30000⟩)] "c1" " 2040 " 500 10 =
      ([("c1", (⟨"2040", 0, 300, 30000⟩ : Challenge))].filter (fun q => q.1 != "c1"), true,
        if (500 : ℚ) < 1000 then .verified_fast_response else .verified) ∧
     ([("c1", (⟨"2040", 0, 300, 30000⟩ : Challenge))].filter (fun q => q.1 != "c1")).find?
        (fun p => p.1 == "c1") = none ∧
     ∀ (answer' : String) (rt' now' : ℚ),
       verify_challenge_response
           ([("c1", (⟨"2040", 0, 300, 30000⟩ : Challenge))].filter (fun q => q.1 != "c1"))
           "c1" answer' rt' now' =
         ([("c1", (⟨"2040", 0, 300, 30000⟩ : Challenge))].filter (fun q => q.1 != "c1"), false,
           .challenge_not_found_or_expired)) := by
  refine ⟨rfl, by norm_num, by norm_num, by decide, ?_⟩
  exact (verify_challenge_response_spec [("c1", ⟨"2040", 0, 300, 30000⟩)] "c1" " 2040 "
    500 10 ("c1", ⟨"2040", 0, 300, 30000⟩)).2.2.2 rfl (by norm_num) (by norm_num) (by decide)

/-- C2 (code bug): the registration router samples `request_start` at the
top of handling the submission, so the "response time" it verifies is the
handler-internal latency, not the elapsed time since the challenge was
issued.  Concretely: a challenge issued at t = 0 s (expiry 300 s,
max response 30000 ms), answered correctly in a request that arrives at
t = 120 s — 120 s > 30 s after issuance, within expiry — and is verified
5 ms later, is accepted with reason `verified_fast_response` instead of
being rejected with `response_too_slow`. -/
theorem register_late_answer_not_rejected_as_slow :
    register_agent_verify [("c1", ⟨"2040", 0, 300, 30000⟩)] "c1" "2040" 120 (120 + 1/200) =
      ([], true, .verified_fast_response) ∧
    (120 : ℚ) - Challenge.created_at ⟨"2040", 0, 300, 30000⟩ > 30 ∧
    (120 : ℚ) < Challenge.expires_at ⟨"2040", 0, 300, 30000⟩ := by
  refine ⟨?_, by norm_num, by norm_num⟩
  unfold register_agent_verify verify_registration verify_challenge_response
  rw [show ([("c1", (⟨"2040", 0, 300, 30000⟩ : Challenge))].find? (fun p => p.1 == "c1")) =
    some ("c1", ⟨"2040", 0, 300, 30000⟩) from rfl]
  dsimp only
  rw [if_neg (by norm_num), if_neg (by norm_num), if_neg (by decide)]
  rw [if_pos (by norm_num)]
  rfl

/-- C7: the optional-authentication dependency applies no status gate — a
banned or suspended agent presenting its valid API key is returned as
authenticated (with `last_active_at` updated), while the
required-authentication dependency rejects the same credentials with the
403 banned/suspended error. -/
theorem get_optional_agent_ignores_status :
    ∀ (db : List Agent) (k : String) (agent : Agent) (now : ℚ),
      startsWithL k.data ("aam_").data = true →
      db.find? (fun a => a.api_key_hash == hash_api_key k) = some agent →
      agent.status = .banned ∨ agent.status = .suspended →
      (get_optional_agent (some k) db now).1 =
        some { agent with last_active_at := some now } ∧
      (get_current_agent (some k) db now = .error .bannedAccount ∨
       get_current_agent (some k) db now = .error .suspendedAccount) := by
  intro db k agent now hpre hfind hstat
  have hne : ¬(k = "") := by
    intro h
    subst h
    exact absurd hpre (by decide)
  constructor
  · unfold get_optional_agent
    dsimp only
    rw [if_neg (by simp [hne, hpre]), hfind]
  · unfold get_current_agent
    dsimp only
    rw [if_neg hne, if_neg (by simp [hpre]), hfind]
    dsimp only
    rcases hstat with hb | hs
    · rw [if_pos hb]
      exact Or.inl rfl
    · rw [if_neg (by rw [hs]; decide), if_pos hs]
      exact Or.inr rfl

/-- Witness for C7: a concrete banned agent with a valid key. -/
theorem get_optional_agent_ignores_status_witness :
    (startsWithL ("aam_k1").data ("aam_").data = true) ∧
    ([(⟨"a1", "sha256:aam_k1", .banned, 0, 0, 0, 0, 0, none⟩ : Agent)].find?
        (fun a => a.api_key_hash == hash_api_key "aam_k1") =
      some ⟨"a1", "sha256:aam_k1", .banned, 0, 0, 0, 0, 0, none⟩) ∧
    ((⟨"a1", "sha256:aam_k1", .banned, 0, 0, 0, 0, 0, none⟩ : Agent).status = .banned ∨
      (⟨"a1", "sha256:aam_k1", .banned, 0, 0, 0, 0, 0, none⟩ : Agent).status = .suspended) ∧
    ((get_optional_agent (some "aam_k1")
        [⟨"a1", "sha256:aam_k1", .banned, 0, 0, 0, 0, 0, none⟩] 7).1 =
      some { (⟨"a1", "sha256:aam_k1", .banned, 0, 0, 0, 0, 0, none⟩ : Agent) with
               last_active_at := some (7 : ℚ) } ∧
     (get_current_agent (some "aam_k1")
          [⟨"a1", "sha256:aam_k1", .banned, 0, 0, 0, 0, 0, none⟩] 7 =
        .error .bannedAccount ∨
      get_current_agent (some "aam_k1")
          [⟨"a1", "sha256:aam_k1", .banned, 0, 0, 0, 0, 0, none⟩] 7 =
        .error .suspendedAccount)) := by
  refine ⟨by decide, rfl, Or.inl rfl, ?_⟩
  exact get_optional_agent_ignores_status
    [⟨"a1", "sha256:aam_k1", .banned, 0, 0, 0, 0, 0, none⟩] "aam_k1"
    ⟨"a1", "sha256:aam_k1", .banned, 0, 0, 0, 0, 0, none⟩ 7
    (by decide) rfl (Or.inl rfl)

/-! ## Supporting lemmas for the Guardian trust store -/

theorem find?_append_singleton {α : Type} (l : List (String × α)) (aid : String)
    (x : String × α) (h : l.find? (fun p => p.1 == aid) = none) (hx : (x.1 == aid) = true) :
    (l ++ [x]).find? (fun p => p.1 == aid) = some x := by
  induction l with
  | nil =>
    simp only [List.nil_append]
    exact List.find?_cons_of_pos _ hx
  | cons p t ih =>
    by_cases hp : (p.1 == aid) = true
    · exact absurd hp (by simpa using (List.find?_eq_none.mp h) p (by simp))
    · rw [List.find?_cons_of_neg _ (by simpa using hp)] at h
      rw [List.cons_append, List.find?_cons_of_neg _ (by simpa using hp)]
      exact ih h

theorem find?_map_replace {α : Type} (l : List (String × α)) (aid : String) (t : α)
    (y : String × α) (h : l.find? (fun p => p.1 == aid) = some y) :
    (l.map fun p => if p.1 == aid then (aid, t) else p).find? (fun p => p.1 == aid) =
      some (aid, t) := by
  induction l with
  | nil => simp at h
  | cons p tl ih =>
    by_cases hp : (p.1 == aid) = true
    · simp only [List.map_cons]
      rw [if_pos hp]
      exact List.find?_cons_of_pos _ (by simp)
    · simp only [List.map_cons]
      rw [if_neg hp, List.find?_cons_of_neg _ (by simpa using hp)]
      rw [List.find?_cons_of_neg _ (by simpa using hp)] at h
      exact ih h

/-- After `_get_agent_trust`, the store holds the returned trust record
under a key matching the agent id. -/
theorem find_after_get (st : GuardianState) (aid : String) :
    ∃ k, (k == aid) = true ∧
      ((_get_agent_trust st aid).2).agent_trust_scores.find? (fun p => p.1 == aid) =
        some (k, (_get_agent_trust st aid).1) := by
  unfold _get_agent_trust
  cases h : st.agent_trust_scores.find? (fun p => p.1 == aid) with
  | none =>
    refine ⟨aid, by simp, ?_⟩
    dsimp only
    exact find?_append_singleton _ _ _ h (by simp)
  | some p =>
    refine ⟨p.1, by simpa using List.find?_some h, ?_⟩
    dsimp only
    rw [h]

/-- The `appendLog` leaves the trust store untouched. -/
theorem get_trust_appendLog (st : GuardianState) (log : ModerationLog) (aid : String) :
    (_get_agent_trust (appendLog st log) aid).1 = (_get_agent_trust st aid).1 := by
  unfold _get_agent_trust appendLog
  dsimp only
  cases h : st.agent_trust_scores.find? (fun p => p.1 == aid) <;> rfl

/-- The `_record_warning` increments the stored warning counter by exactly
one. -/
theorem warnings_after_record (st : GuardianState) (aid : String) (y : String × AgentTrustScore)
    (hfind : st.agent_trust_scores.find? (fun p => p.1 == aid) = some y) :
    (_get_agent_trust (_record_warning st aid) aid).1.warnings = y.2.warnings + 1 := by
  unfold _record_warning _get_agent_trust _set_trust
  rw [hfind]
  dsimp only
  by_cases h3 : 3 ≤ y.2.warnings + 1
  · rw [if_pos h3, find?_map_replace _ _ _ _ hfind]
  · rw [if_neg h3, find?_map_replace _ _ _ _ hfind]

/-- C1 (amended): for every listing submission with severity at most 2
from a currently trusted agent, where the content is not (safe with
severity 0), Guardian's review yields the `warning` action and records
exactly one warning against the agent — but `create_listing` rejects the
listing with the Guardian-rejected error, because only the `approved`
action lets a listing through. -/
theorem review_warning_spec :
    ∀ (gst : GuardianState) (now : ℚ) (agent : Agent) (data : ListingCreateData)
      (cats : List Category) (newId : String),
      (_get_agent_trust gst agent.id).1.is_trusted = true →
      _calculate_severity data.title data.description data.tags ≤ 2 →
      ¬((check_content_safety data.title data.description data.tags).1 = true ∧
        _calculate_severity data.title data.description data.tags = 0) →
      (review_listing gst now "pending" data.title data.description data.tags agent.id).1 =
        { approved := false, action := .warning } ∧
      (_get_agent_trust
          (review_listing gst now "pending" data.title data.description data.tags agent.id).2
          agent.id).1.warnings =
        (_get_agent_trust gst agent.id).1.warnings + 1 ∧
      (create_listing gst now agent data cats newId).2 =
        .error (.guardianRejected { approved := false, action := .warning }) := by
  intro gst now agent data cats newId htrust hsev hns
  have hrev : review_listing gst now "pending" data.title data.description data.tags agent.id =
      ({ approved := false, action := .warning },
        appendLog (_record_warning ((_get_agent_trust gst agent.id).2) agent.id)
          { action := .warning, target_type := "listing", target_id := "pending",
            agent_id := some agent.id,
            reason := (check_content_safety data.title data.description data.tags).2,
            severity := some (_calculate_severity data.title data.description data.tags) }) := by
    unfold review_listing
    dsimp only
    rw [if_neg hns, if_pos ⟨hsev, htrust⟩]
    rfl
  refine ⟨by rw [hrev], ?_, ?_⟩
  · rw [hrev]
    dsimp only
    rw [get_trust_appendLog]
    obtain ⟨k, -, hk⟩ := find_after_get gst agent.id
    rw [warnings_after_record _ _ _ hk]
  · unfold create_listing
    dsimp only
    rw [hrev, if_pos rfl]

/-- Witness for C1's amended theorem, and the refutation of the original
claim's "listing still allowed through": the concrete title `"unlock"`
(safe content, severity 1) from a fresh (trusted) agent gets the `warning`
action and one recorded warning, yet `create_listing` returns the
Guardian-rejected error instead of creating the listing. -/
theorem review_warning_spec_witness :
    ((_get_agent_trust freshGuardian
        (Agent.id ⟨"a1", "k1", .active, 100, 0, 0, 0, 0, none⟩)).1.is_trusted = true) ∧
    (_calculate_severity (ListingCreateData.title ⟨"unlock", "a helpful thing", [], none, 10, 1⟩)
        (ListingCreateData.description ⟨"unlock", "a helpful thing", [], none, 10, 1⟩)
        (ListingCreateData.tags ⟨"unlock", "a helpful thing", [], none, 10, 1⟩) ≤ 2) ∧
    ¬((check_content_safety
          (ListingCreateData.title ⟨"unlock", "a helpful thing", [], none, 10, 1⟩)
          (ListingCreateData.description ⟨"unlock", "a helpful thing", [], none, 10, 1⟩)
          (ListingCreateData.tags ⟨"unlock", "a helpful thing", [], none, 10, 1⟩)).1 = true ∧
      _calculate_severity (ListingCreateData.title ⟨"unlock", "a helpful thing", [], none, 10, 1⟩)
        (ListingCreateData.description ⟨"unlock", "a helpful thing", [], none, 10, 1⟩)
        (ListingCreateData.tags ⟨"unlock", "a helpful thing", [], none, 10, 1⟩) = 0) ∧
    ((review_listing freshGuardian 0 "pending"
        (ListingCreateData.title ⟨"unlock", "a helpful thing", [], none, 10, 1⟩)
        (ListingCreateData.description ⟨"unlock", "a helpful thing", [], none, 10, 1⟩)
        (ListingCreateData.tags ⟨"unlock", "a helpful thing", [], none, 10, 1⟩)
        (Agent.id ⟨"a1", "k1", .active, 100, 0, 0, 0, 0, none⟩)).1 =
      { approved := false, action := .warning } ∧
     (_get_agent_trust
        (review_listing freshGuardian 0 "pending"
          (ListingCreateData.title ⟨"unlock", "a helpful thing", [], none, 10, 1⟩)
          (ListingCreateData.description ⟨"unlock", "a helpful thing", [], none, 10, 1⟩)
          (ListingCreateData.tags ⟨"unlock", "a helpful thing", [], none, 10, 1⟩)
          (Agent.id ⟨"a1", "k1", .active, 100, 0, 0, 0, 0, none⟩)).2
        (Agent.id ⟨"a1", "k1", .active, 100, 0, 0, 0, 0, none⟩)).1.warnings =
      (_get_agent_trust freshGuardian
        (Agent.id ⟨"a1", "k1", .active, 100, 0, 0, 0, 0, none⟩)).1.warnings + 1 ∧
     (create_listing freshGuardian 0 ⟨"a1", "k1", .active, 100, 0, 0, 0, 0, none⟩
        ⟨"unlock", "a helpful thing", [], none, 10, 1⟩ [] "L1").2 =
      .error (.guardianRejected { approved := false, action := .warning })) := by
  refine ⟨rfl, by decide, by decide, ?_⟩
  exact review_warning_spec freshGuardian 0 ⟨"a1", "k1", .active, 100, 0, 0, 0, 0, none⟩
    ⟨"unlock", "a helpful thing", [], none, 10, 1⟩ [] "L1" rfl (by decide) (by decide)

/-- C1 counterexample to the claim as stated: on the concrete warning-level
submission (title `"unlock"`, safe content, severity 1, trusted agent) the
review action is `warning` with one warning recorded, yet the listing is
NOT created — `create_listing` rejects it with the Guardian message,
because `approved` is `action == APPROVED` and the router raises HTTP 400
for every non-approved review. -/
theorem warning_listing_not_created_cex :
    (review_listing freshGuardian 0 "pending" "unlock" "a helpful thing" [] "a1").1 =
      { approved := false, action := .warning } ∧
    (_get_agent_trust
        (review_listing freshGuardian 0 "pending" "unlock" "a helpful thing" [] "a1").2
        "a1").1.warnings = 1 ∧
    (create_listing freshGuardian 0 ⟨"a1", "k1", .active, 100, 0, 0, 0, 0, none⟩
        ⟨"unlock", "a helpful thing", [], none, 10, 1⟩ [] "L1").2 =
      .error (.guardianRejected { approved := false, action := .warning }) := by
  exact ⟨by decide, by decide, rfl⟩
